import Mathlib

/-
  Shallow embedding of the yojimbo BaseTransport packet pipeline
  (src/yojimbo_transport.cpp) and verification of its specification.

  Modelling conventions:
  * Addresses and keys are Nat; a key pointer that may be NULL is Option Nat.
  * The raw I/O collaborator (virtual InternalSendPacket / InternalReceivePacket,
    implemented outside this translation unit) is modelled as two explicit
    lists on the transport state: pendingDatagrams (inbound datagrams still
    held by the I/O layer; InternalReceivePacket pops the head and returns
    0 bytes when it is empty) and sentDatagrams (a log of every buffer handed
    to InternalSendPacket).
  * The packet processor is an external collaborator (out of scope per the
    spec); it is a pair of pure functions returning either a result or a
    tagged PacketProcessorError, matching WritePacket/ReadPacket + GetError.
  * Packet destruction (packet->Destroy()) is modelled by appending the packet
    to a `destroyed` log on the transport state.
  * The counters array m_counters is a function from the counter enum to Nat.
  * YOJIMBO_INSECURE_CONNECT is compiled in (the spec's design notes fold the
    conditional compilation into the runtime insecure-mode flag).
-/

namespace Yojimbo

/-- The TRANSPORT_COUNTER_* enum: one slot per outcome category. -/
inductive TransportCounter where
  | packetsSent
  | packetsReceived
  | packetsWritten
  | packetsRead
  | sendQueueOverflow
  | receiveQueueOverflow
  | encryptedPacketsWritten
  | unencryptedPacketsWritten
  | encryptedPacketsRead
  | unencryptedPacketsRead
  | encryptionMappingFailures
  | encryptPacketFailures
  | decryptPacketFailures
  | writePacketFailures
  | readPacketFailures
deriving DecidableEq, Fintype, Repr

/-- The PACKET_PROCESSOR_ERROR_* enum of the external packet processor. -/
inductive PacketProcessorError where
  | keyIsNull
  | encryptFailed
  | writePacketFailed
  | decryptFailed
  | packetTooSmall
  | readPacketFailed
deriving DecidableEq, Repr

/-- An application packet: a type id plus an identity used only to track
ownership/destruction. The pipeline never inspects the payload. -/
structure Packet where
  ptype : Nat
  pid : Nat
deriving DecidableEq, Repr

/-- A send/receive queue entry: sequence, address, owned packet
(struct PacketEntry in the source). -/
structure PacketEntry where
  sequence : Nat
  address : Nat
  packet : Packet
deriving DecidableEq, Repr

/-- The external packet processor collaborator: WritePacket turns a packet
into bytes (or fails with a tagged error); ReadPacket turns bytes into a
packet, its sequence number and its encrypted-or-not outcome (or fails).
Allocator / factory / context-data arguments carry no observable behaviour
in this layer and are abstracted away. -/
structure PacketProcessor where
  writePacket : Packet → Nat → Bool → Option Nat → Except PacketProcessorError (List Nat)
  readPacket : List Nat → Option Nat → List Bool → List Bool →
    Except PacketProcessorError (Packet × Nat × Bool)

/-- The BaseTransport state. The encryption key directory is not part of the
given translation unit; modelled from the spec as per-address send/receive
key lookups (time-based expiry is irrelevant to every property below). -/
structure Transport where
  packetFactory : Option Nat
  sendQueueCapacity : Nat
  receiveQueueCapacity : Nat
  sendQueue : List PacketEntry
  receiveQueue : List PacketEntry
  counters : TransportCounter → Nat
  flags : Nat
  sendKeys : Nat → Option Nat
  receiveKeys : Nat → Option Nat
  packetTypeIsEncrypted : List Bool
  packetTypeIsUnencrypted : List Bool
  allPacketTypes : List Bool
  pendingDatagrams : List (Nat × List Nat)
  sentDatagrams : List (Nat × List Nat)
  destroyed : List Packet

/-- TRANSPORT_FLAG_INSECURE_MODE bit. -/
def TRANSPORT_FLAG_INSECURE_MODE : Nat := 1

/-- m_counters[c]++ . -/
def incrCounter (t : Transport) (c : TransportCounter) : Transport :=
  { t with counters := fun x => if x = c then t.counters x + 1 else t.counters x }

/-- packet->Destroy(), recorded on the destruction log. -/
def destroyPacket (t : Transport) (p : Packet) : Transport :=
  { t with destroyed := t.destroyed ++ [p] }

/-- Modelled from the spec: the bounded packet queue (class Queue, not in the
given translation unit). `0 <= count <= N`; IsFull means the count has
reached capacity. -/
def sendQueueIsFull (t : Transport) : Bool :=
  decide (t.sendQueueCapacity ≤ t.sendQueue.length)

/-- Modelled from the spec: IsFull for the inbound bounded queue. -/
def receiveQueueIsFull (t : Transport) : Bool :=
  decide (t.receiveQueueCapacity ≤ t.receiveQueue.length)

/-- ( GetFlags() & TRANSPORT_FLAG_INSECURE_MODE ) as a Bool. -/
def insecureMode (t : Transport) : Bool :=
  decide (t.flags &&& TRANSPORT_FLAG_INSECURE_MODE ≠ 0)

/-- BaseTransport::SetPacketFactory: allocates the three per-type tables;
m_allPacketTypes is memset to 1, m_packetTypeIsEncrypted to 0,
m_packetTypeIsUnencrypted to 1. -/
def SetPacketFactory (numPacketTypes : Nat) (t : Transport) : Transport :=
  { t with
    packetFactory := some numPacketTypes,
    allPacketTypes := List.replicate numPacketTypes true,
    packetTypeIsEncrypted := List.replicate numPacketTypes false,
    packetTypeIsUnencrypted := List.replicate numPacketTypes true }

/-- BaseTransport::IsEncryptedPacketType: m_packetTypeIsEncrypted[type] != 0. -/
def IsEncryptedPacketType (t : Transport) (ptype : Nat) : Bool :=
  t.packetTypeIsEncrypted.getD ptype false

/-- BaseTransport::EnablePacketEncryption: memset isEncrypted to 1,
isUnencrypted to 0 over the numPacketTypes entries. -/
def EnablePacketEncryption (t : Transport) : Transport :=
  { t with
    packetTypeIsEncrypted := List.replicate t.packetTypeIsEncrypted.length true,
    packetTypeIsUnencrypted := List.replicate t.packetTypeIsUnencrypted.length false }

/-- BaseTransport::DisableEncryptionForPacketType. -/
def DisableEncryptionForPacketType (ptype : Nat) (t : Transport) : Transport :=
  { t with
    packetTypeIsEncrypted := t.packetTypeIsEncrypted.set ptype false,
    packetTypeIsUnencrypted := t.packetTypeIsUnencrypted.set ptype true }

/-- EncryptionManager::GetSendKey (external to this translation unit;
modelled from the spec as a per-address lookup). -/
def GetSendKey (t : Transport) (address : Nat) : Option Nat :=
  t.sendKeys address

/-- EncryptionManager::GetReceiveKey (external; modelled from the spec). -/
def GetReceiveKey (t : Transport) (address : Nat) : Option Nat :=
  t.receiveKeys address

/-- The encrypt flag computed at the top of WriteAndFlushPacket:
with YOJIMBO_INSECURE_CONNECT, `( GetFlags() & TRANSPORT_FLAG_INSECURE_MODE )
? IsEncryptedPacketType( packetType ) && key : IsEncryptedPacketType( packetType )`. -/
def computeEncrypt (t : Transport) (ptype : Nat) (key : Option Nat) : Bool :=
  if insecureMode t then IsEncryptedPacketType t ptype && key.isSome
  else IsEncryptedPacketType t ptype

/-- BaseTransport::WriteAndFlushPacket: resolve the send key, compute the
encrypt flag, invoke the processor; on failure map the error to a counter
and return; on success hand the bytes to InternalSendPacket and bump the
written counters. -/
def WriteAndFlushPacket (proc : PacketProcessor) (address : Nat) (packet : Packet)
    (sequence : Nat) (t : Transport) : Transport :=
  let key := GetSendKey t address
  let encrypt := computeEncrypt t packet.ptype key
  match proc.writePacket packet sequence encrypt key with
  | Except.error e =>
    match e with
    | PacketProcessorError.keyIsNull =>
        incrCounter t TransportCounter.encryptionMappingFailures
    | PacketProcessorError.encryptFailed =>
        incrCounter t TransportCounter.encryptPacketFailures
    | PacketProcessorError.writePacketFailed =>
        incrCounter t TransportCounter.writePacketFailures
    | _ => t
  | Except.ok packetData =>
    let t1 := { t with sentDatagrams := t.sentDatagrams ++ [(address, packetData)] }
    let t2 := incrCounter t1 TransportCounter.packetsWritten
    if encrypt then incrCounter t2 TransportCounter.encryptedPacketsWritten
    else incrCounter t2 TransportCounter.unencryptedPacketsWritten

/-- BaseTransport::SendPacket. Note the control flow of the source: the
immediate branch increments TRANSPORT_COUNTER_PACKETS_SENT, runs
WriteAndFlushPacket, destroys the packet, and then FALLS THROUGH to the
final increment of TRANSPORT_COUNTER_PACKETS_SENT at the end of the
function; only the queue-overflow branch returns early. -/
def SendPacket (proc : PacketProcessor) (address : Nat) (packet : Packet)
    (sequence : Nat) (immediate : Bool) (t : Transport) : Transport :=
  if immediate then
    let t1 := incrCounter t TransportCounter.packetsSent
    let t2 := WriteAndFlushPacket proc address packet sequence t1
    let t3 := destroyPacket t2 packet
    incrCounter t3 TransportCounter.packetsSent
  else
    if !(sendQueueIsFull t) then
      let t1 := { t with sendQueue := t.sendQueue ++ [⟨sequence, address, packet⟩] }
      incrCounter t1 TransportCounter.packetsSent
    else
      destroyPacket (incrCounter t TransportCounter.sendQueueOverflow) packet

/-- BaseTransport::ReceivePacket. Returns (packet, from-address, sequence)
when a packet is available; the sequence out-parameter is modelled as always
supplied. -/
def ReceivePacket (t : Transport) : Option (Packet × Nat × Nat) × Transport :=
  if t.packetFactory.isNone then (none, t)
  else
    match t.receiveQueue with
    | [] => (none, t)
    | entry :: rest =>
      (some (entry.packet, entry.address, entry.sequence),
        incrCounter { t with receiveQueue := rest } TransportCounter.packetsReceived)

/-- The drain loop of BaseTransport::WritePackets, recursing on the queue
contents: pop an entry, WriteAndFlushPacket it, destroy its packet. -/
def WritePacketsLoop (proc : PacketProcessor) : List PacketEntry → Transport → Transport
  | [], t => t
  | entry :: rest, t =>
    WritePacketsLoop proc rest
      (destroyPacket (WriteAndFlushPacket proc entry.address entry.packet entry.sequence t)
        entry.packet)

/-- BaseTransport::WritePackets: no-op without a packet factory, otherwise
drains the send queue in FIFO order. -/
def WritePackets (proc : PacketProcessor) (t : Transport) : Transport :=
  if t.packetFactory.isNone then t
  else WritePacketsLoop proc t.sendQueue { t with sendQueue := [] }

/-- The switch on m_packetProcessor->GetError() in the ReadPackets failure
path: map the error to a counter; unlisted errors hit the default branch. -/
def readErrorStep (t : Transport) (e : PacketProcessorError) : Transport :=
  match e with
  | PacketProcessorError.keyIsNull =>
      incrCounter t TransportCounter.encryptionMappingFailures
  | PacketProcessorError.decryptFailed =>
      incrCounter t TransportCounter.encryptPacketFailures
  | PacketProcessorError.packetTooSmall =>
      incrCounter t TransportCounter.decryptPacketFailures
  | PacketProcessorError.readPacketFailed =>
      incrCounter t TransportCounter.readPacketFailures
  | _ => t

/-- Which failure counter the ReadPackets error switch increments for each
processor error (none for errors falling into the default branch). -/
def readFailureCounter : PacketProcessorError → Option TransportCounter
  | PacketProcessorError.keyIsNull => some TransportCounter.encryptionMappingFailures
  | PacketProcessorError.decryptFailed => some TransportCounter.encryptPacketFailures
  | PacketProcessorError.packetTooSmall => some TransportCounter.decryptPacketFailures
  | PacketProcessorError.readPacketFailed => some TransportCounter.readPacketFailures
  | _ => none

/-- The while-true loop of BaseTransport::ReadPackets over the datagrams the
raw I/O layer still holds. Mirrors the source order: InternalReceivePacket
consumes a datagram FIRST, then the queue-full check runs (so a datagram
consumed at a full queue is dropped, and the remaining ones stay with the
I/O layer); on processor failure the error switch runs and the loop
continues; on success the packet is pushed and the read counters bumped. -/
def ReadPacketsLoop (proc : PacketProcessor) :
    List (Nat × List Nat) → Transport → Transport
  | [], t => { t with pendingDatagrams := [] }
  | (address, buffer) :: rest, t =>
    if receiveQueueIsFull t then
      { incrCounter t TransportCounter.receiveQueueOverflow with pendingDatagrams := rest }
    else
      let encryptedPacketTypes :=
        if insecureMode t then t.allPacketTypes else t.packetTypeIsEncrypted
      let unencryptedPacketTypes :=
        if insecureMode t then t.allPacketTypes else t.packetTypeIsUnencrypted
      let key := GetReceiveKey t address
      match proc.readPacket buffer key encryptedPacketTypes unencryptedPacketTypes with
      | Except.error e => ReadPacketsLoop proc rest (readErrorStep t e)
      | Except.ok (packet, sequence, encrypted) =>
        let t1 := { t with receiveQueue := t.receiveQueue ++ [⟨sequence, address, packet⟩] }
        let t2 := incrCounter t1 TransportCounter.packetsRead
        let t3 := if encrypted then incrCounter t2 TransportCounter.encryptedPacketsRead
                  else incrCounter t2 TransportCounter.unencryptedPacketsRead
        ReadPacketsLoop proc rest t3

/-- BaseTransport::ReadPackets: no-op without a packet factory, otherwise
drains the raw I/O layer. -/
def ReadPackets (proc : PacketProcessor) (t : Transport) : Transport :=
  if t.packetFactory.isNone then t
  else ReadPacketsLoop proc t.pendingDatagrams { t with pendingDatagrams := [] }

/-- The complementarity invariant of the classification tables: equal sizes
and, at every valid type id, isUnencrypted is the negation of isEncrypted. -/
def classificationComplementary (t : Transport) : Bool :=
  (t.packetTypeIsEncrypted.length == t.packetTypeIsUnencrypted.length)
  && (List.range t.packetTypeIsEncrypted.length).all
      (fun i => t.packetTypeIsUnencrypted.getD i false == !t.packetTypeIsEncrypted.getD i false)

/-! Concrete instances used by witnesses and counterexamples. -/

/-- All-zero counters. -/
def zeroCounters : TransportCounter → Nat := fun _ => 0

/-- A processor that always succeeds. -/
def procOk : PacketProcessor :=
  { writePacket := fun _ _ _ _ => Except.ok [7],
    readPacket := fun buffer _ _ _ => Except.ok (⟨0, buffer.headD 0⟩, 5, false) }

/-- A processor that fails with the key-is-null error whenever asked to
encrypt without a key. -/
def procNeedsKey : PacketProcessor :=
  { writePacket := fun _ _ encrypt key =>
      if encrypt && !key.isSome then Except.error PacketProcessorError.keyIsNull
      else Except.ok [7],
    readPacket := fun _ _ _ _ => Except.error PacketProcessorError.packetTooSmall }

/-- A sample unencrypted-type packet. -/
def pkt0 : Packet := ⟨0, 100⟩

/-- A sample encrypted-type packet. -/
def pkt1 : Packet := ⟨1, 101⟩

/-- A small transport: 2 packet types (type 1 encrypted), send capacity 1,
receive capacity 2, no keys, empty queues. -/
def baseTransport : Transport :=
  { packetFactory := some 2,
    sendQueueCapacity := 1,
    receiveQueueCapacity := 2,
    sendQueue := [],
    receiveQueue := [],
    counters := zeroCounters,
    flags := 0,
    sendKeys := fun _ => none,
    receiveKeys := fun _ => none,
    packetTypeIsEncrypted := [false, true],
    packetTypeIsUnencrypted := [true, false],
    allPacketTypes := [true, true],
    pendingDatagrams := [],
    sentDatagrams := [],
    destroyed := [] }

/-! Helper lemmas shared across the claims. -/

/-- getD on a replicate list inside the range yields the replicated value. -/
theorem list_getD_replicate (b d : Bool) (n i : Nat) (h : i < n) :
    (List.replicate n b).getD i d = b := by
  induction n generalizing i with
  | zero => exact absurd h (Nat.not_lt_zero i)
  | succ m ih =>
    cases i with
    | zero => simp
    | succ j =>
      rw [List.replicate_succ]
      simpa using ih j (Nat.lt_of_succ_lt_succ h)

/-- WriteAndFlushPacket never touches the packets-sent counter. -/
theorem writeAndFlushPacket_packetsSent (proc : PacketProcessor) (address : Nat)
    (packet : Packet) (sequence : Nat) (t : Transport) :
    (WriteAndFlushPacket proc address packet sequence t).counters TransportCounter.packetsSent
      = t.counters TransportCounter.packetsSent := by
  simp only [WriteAndFlushPacket]
  split
  · rename_i e heq
    cases e <;> simp [incrCounter]
  · rename_i d heq
    split <;> simp [incrCounter]

/-! The claims. -/

/-- C1: claimed, for a send accepted immediately or queued, exactly one
increment of the packets-sent counter. The code contradicts this on the
immediate path: SendPacket increments TRANSPORT_COUNTER_PACKETS_SENT inside
the immediate branch and then falls through to the unconditional increment
at the end of the function, so every immediate send bumps the counter by
two. This theorem evaluates the code on the failing input class. -/
theorem sendPacket_immediate_double_increments_packetsSent
    (proc : PacketProcessor) (address : Nat) (packet : Packet) (sequence : Nat)
    (t : Transport) :
    (SendPacket proc address packet sequence true t).counters TransportCounter.packetsSent
      = t.counters TransportCounter.packetsSent + 2 := by
  simp [SendPacket, destroyPacket, incrCounter, writeAndFlushPacket_packetsSent]

/-- C4: a non-immediate send on a full send queue destroys the packet,
increments only the send-queue-overflow counter, and leaves the queue
contents, the other counters and the outbound I/O log unchanged. -/
theorem sendPacket_queueFull_drops_packet
    (proc : PacketProcessor) (address : Nat) (packet : Packet) (sequence : Nat)
    (t : Transport) (hfull : sendQueueIsFull t = true) :
    (SendPacket proc address packet sequence false t).sendQueue = t.sendQueue
    ∧ (SendPacket proc address packet sequence false t).counters
        TransportCounter.sendQueueOverflow
        = t.counters TransportCounter.sendQueueOverflow + 1
    ∧ (∀ c, c ≠ TransportCounter.sendQueueOverflow →
        (SendPacket proc address packet sequence false t).counters c = t.counters c)
    ∧ (SendPacket proc address packet sequence false t).destroyed
        = t.destroyed ++ [packet]
    ∧ (SendPacket proc address packet sequence false t).sentDatagrams
        = t.sentDatagrams := by
  refine ⟨?_, ?_, ?_, ?_, ?_⟩
  · simp [SendPacket, hfull, destroyPacket, incrCounter]
  · simp [SendPacket, hfull, destroyPacket, incrCounter]
  · intro c hc
    simp [SendPacket, hfull, destroyPacket, incrCounter, hc]
  · simp [SendPacket, hfull, destroyPacket, incrCounter]
  · simp [SendPacket, hfull, destroyPacket, incrCounter]

/-- A transport with a full send queue (capacity 1, one resident entry). -/
def tFullSend : Transport :=
  { baseTransport with sendQueue := [⟨3, 1, pkt0⟩] }

/-- C4 witness at a concrete full-queue transport. -/
theorem sendPacket_queueFull_drops_packet_witness :
    sendQueueIsFull tFullSend = true
    ∧ ((SendPacket procOk 2 pkt1 9 false tFullSend).sendQueue = tFullSend.sendQueue
      ∧ (SendPacket procOk 2 pkt1 9 false tFullSend).counters
          TransportCounter.sendQueueOverflow
          = tFullSend.counters TransportCounter.sendQueueOverflow + 1
      ∧ (∀ c, c ≠ TransportCounter.sendQueueOverflow →
          (SendPacket procOk 2 pkt1 9 false tFullSend).counters c
            = tFullSend.counters c)
      ∧ (SendPacket procOk 2 pkt1 9 false tFullSend).destroyed
          = tFullSend.destroyed ++ [pkt1]
      ∧ (SendPacket procOk 2 pkt1 9 false tFullSend).sentDatagrams
          = tFullSend.sentDatagrams) :=
  ⟨by decide, sendPacket_queueFull_drops_packet procOk 2 pkt1 9 tFullSend (by decide)⟩

/-- C5: the encrypt flag handed to the packet processor by the write path is
true iff the type is classified encrypted and, when insecure mode is
engaged, a send key for the destination is actually present; with insecure
mode off it equals the classification alone. -/
theorem writePath_encrypt_flag_spec (t : Transport) (ptype address : Nat) :
    (computeEncrypt t ptype (GetSendKey t address) = true
      ↔ (IsEncryptedPacketType t ptype = true
        ∧ (insecureMode t = true → (GetSendKey t address).isSome = true)))
    ∧ (insecureMode t = false →
        computeEncrypt t ptype (GetSendKey t address) = IsEncryptedPacketType t ptype) := by
  cases h : insecureMode t <;>
    simp [computeEncrypt, h, Bool.and_eq_true]

/-- A transport in insecure mode with a key only for address 1. -/
def tInsecure : Transport :=
  { baseTransport with
    flags := TRANSPORT_FLAG_INSECURE_MODE,
    sendKeys := fun a => if a = 1 then some 99 else none }

/-- C5 witness at a concrete insecure-mode transport and encrypted type. -/
theorem writePath_encrypt_flag_spec_witness :
    (computeEncrypt tInsecure 1 (GetSendKey tInsecure 1) = true
      ↔ (IsEncryptedPacketType tInsecure 1 = true
        ∧ (insecureMode tInsecure = true → (GetSendKey tInsecure 1).isSome = true)))
    ∧ (insecureMode tInsecure = false →
        computeEncrypt tInsecure 1 (GetSendKey tInsecure 1)
          = IsEncryptedPacketType tInsecure 1) :=
  writePath_encrypt_flag_spec tInsecure 1 1

/-- C6: immediately after SetPacketFactory with n > 0 declared types, every
valid type is classified unencrypted (the encrypt-nothing default). -/
theorem setPacketFactory_encryptNothing_default
    (t : Transport) (numPacketTypes ptype : Nat)
    (hn : 0 < numPacketTypes) (ht : ptype < numPacketTypes) :
    IsEncryptedPacketType (SetPacketFactory numPacketTypes t) ptype = false := by
  simp only [IsEncryptedPacketType, SetPacketFactory]
  exact list_getD_replicate false false numPacketTypes ptype ht

/-- C6 witness: attach a 3-type factory and check type 1. -/
theorem setPacketFactory_encryptNothing_default_witness :
    0 < 3 ∧ 1 < 3
    ∧ IsEncryptedPacketType (SetPacketFactory 3 baseTransport) 1 = false :=
  ⟨by decide, by decide,
    setPacketFactory_encryptNothing_default baseTransport 3 1 (by decide) (by decide)⟩

/-- C10: with no packet factory attached, ReceivePacket yields no packet and
leaves the state intact even on a non-empty receive queue, and WritePackets
and ReadPackets return immediately without touching any state. -/
theorem noPacketFactory_pipeline_noops (proc : PacketProcessor) (t : Transport)
    (hfac : t.packetFactory = none) :
    ReceivePacket t = (none, t) ∧ WritePackets proc t = t ∧ ReadPackets proc t = t := by
  simp [ReceivePacket, WritePackets, ReadPackets, hfac]

/-- A transport with no factory but a non-empty receive queue and pending
inbound datagrams. -/
def tNoFactory : Transport :=
  { baseTransport with
    packetFactory := none,
    receiveQueue := [⟨42, 7, pkt0⟩],
    pendingDatagrams := [(7, [1, 2, 3])] }

/-- C10 witness at a concrete factory-less transport. -/
theorem noPacketFactory_pipeline_noops_witness :
    ReceivePacket tNoFactory = (none, tNoFactory)
    ∧ WritePackets procOk tNoFactory = tNoFactory
    ∧ ReadPackets procOk tNoFactory = tNoFactory :=
  noPacketFactory_pipeline_noops procOk tNoFactory rfl

/-- C9: popping an empty receive queue yields no packet and leaves the whole
state untouched; popping a non-empty one removes the oldest entry, yields
its packet, originating address and sequence number, and bumps exactly the
packets-received counter. -/
theorem receivePacket_spec (t : Transport) (n : Nat) (entry : PacketEntry)
    (rest : List PacketEntry) (hfac : t.packetFactory = some n) :
    (t.receiveQueue = [] → ReceivePacket t = (none, t))
    ∧ (t.receiveQueue = entry :: rest →
        (ReceivePacket t).1 = some (entry.packet, entry.address, entry.sequence)
        ∧ (ReceivePacket t).2.receiveQueue = rest
        ∧ (ReceivePacket t).2.counters TransportCounter.packetsReceived
            = t.counters TransportCounter.packetsReceived + 1
        ∧ (∀ c, c ≠ TransportCounter.packetsReceived →
            (ReceivePacket t).2.counters c = t.counters c)
        ∧ (ReceivePacket t).2.sendQueue = t.sendQueue
        ∧ (ReceivePacket t).2.destroyed = t.destroyed
        ∧ (ReceivePacket t).2.sentDatagrams = t.sentDatagrams
        ∧ (ReceivePacket t).2.pendingDatagrams = t.pendingDatagrams) := by
  constructor
  · intro hq
    simp [ReceivePacket, hfac, hq]
  · intro hq
    refine ⟨?_, ?_, ?_, ?_, ?_, ?_, ?_, ?_⟩
    · simp [ReceivePacket, hfac, hq]
    · simp [ReceivePacket, hfac, hq, incrCounter]
    · simp [ReceivePacket, hfac, hq, incrCounter]
    · intro c hc
      simp [ReceivePacket, hfac, hq, incrCounter, hc]
    · simp [ReceivePacket, hfac, hq, incrCounter]
    · simp [ReceivePacket, hfac, hq, incrCounter]
    · simp [ReceivePacket, hfac, hq, incrCounter]
    · simp [ReceivePacket, hfac, hq, incrCounter]

/-- A transport whose receive queue holds two packets. -/
def tTwoReceived : Transport :=
  { baseTransport with
    receiveQueue := [⟨42, 7, pkt0⟩, ⟨43, 8, pkt1⟩] }

/-- C9 witness at a concrete two-entry receive queue. -/
theorem receivePacket_spec_witness :
    (tTwoReceived.receiveQueue = [] → ReceivePacket tTwoReceived = (none, tTwoReceived))
    ∧ (tTwoReceived.receiveQueue = ⟨42, 7, pkt0⟩ :: [⟨43, 8, pkt1⟩] →
        (ReceivePacket tTwoReceived).1 = some (pkt0, 7, 42)
        ∧ (ReceivePacket tTwoReceived).2.receiveQueue = [⟨43, 8, pkt1⟩]
        ∧ (ReceivePacket tTwoReceived).2.counters TransportCounter.packetsReceived
            = tTwoReceived.counters TransportCounter.packetsReceived + 1
        ∧ (∀ c, c ≠ TransportCounter.packetsReceived →
            (ReceivePacket tTwoReceived).2.counters c = tTwoReceived.counters c)
        ∧ (ReceivePacket tTwoReceived).2.sendQueue = tTwoReceived.sendQueue
        ∧ (ReceivePacket tTwoReceived).2.destroyed = tTwoReceived.destroyed
        ∧ (ReceivePacket tTwoReceived).2.sentDatagrams = tTwoReceived.sentDatagrams
        ∧ (ReceivePacket tTwoReceived).2.pendingDatagrams = tTwoReceived.pendingDatagrams) :=
  receivePacket_spec tTwoReceived 2 ⟨42, 7, pkt0⟩ [⟨43, 8, pkt1⟩] rfl

/-- When the processor reports the key-is-null error, WriteAndFlushPacket
increments the encryption-mapping-failures counter and does nothing else. -/
theorem writeAndFlushPacket_keyIsNull (proc : PacketProcessor) (address : Nat)
    (packet : Packet) (sequence : Nat) (t : Transport)
    (hw : proc.writePacket packet sequence
        (computeEncrypt t packet.ptype (GetSendKey t address)) (GetSendKey t address)
        = Except.error PacketProcessorError.keyIsNull) :
    WriteAndFlushPacket proc address packet sequence t
      = incrCounter t TransportCounter.encryptionMappingFailures := by
  simp only [WriteAndFlushPacket, hw]

/-- C3: draining a single queued packet whose type requires encryption
toward an address with no send key, where the processor reports the
key-is-null error, increments exactly the encryption-mapping-failures
counter, hands nothing to the raw I/O layer, and still destroys the
packet. -/
theorem writePackets_keyMissing_counts_and_destroys
    (proc : PacketProcessor) (t : Transport) (n : Nat) (entry : PacketEntry)
    (hfac : t.packetFactory = some n)
    (hq : t.sendQueue = [entry])
    (hkey : t.sendKeys entry.address = none)
    (henc : IsEncryptedPacketType t entry.packet.ptype = true)
    (hins : t.flags &&& TRANSPORT_FLAG_INSECURE_MODE = 0)
    (hw : proc.writePacket entry.packet entry.sequence true none
        = Except.error PacketProcessorError.keyIsNull) :
    (WritePackets proc t).counters TransportCounter.encryptionMappingFailures
        = t.counters TransportCounter.encryptionMappingFailures + 1
    ∧ (∀ c, c ≠ TransportCounter.encryptionMappingFailures →
        (WritePackets proc t).counters c = t.counters c)
    ∧ (WritePackets proc t).sentDatagrams = t.sentDatagrams
    ∧ (WritePackets proc t).destroyed = t.destroyed ++ [entry.packet] := by
  have hfacb : t.packetFactory.isNone = false := by simp [hfac]
  have h1 : GetSendKey { t with sendQueue := ([] : List PacketEntry) } entry.address
      = none := by
    simp [GetSendKey, hkey]
  have h2 : computeEncrypt { t with sendQueue := ([] : List PacketEntry) }
      entry.packet.ptype none = true := by
    simp only [computeEncrypt, insecureMode, IsEncryptedPacketType] at henc ⊢
    simp [hins]
    simpa using henc
  have hw1 : proc.writePacket entry.packet entry.sequence
      (computeEncrypt { t with sendQueue := ([] : List PacketEntry) } entry.packet.ptype
        (GetSendKey { t with sendQueue := ([] : List PacketEntry) } entry.address))
      (GetSendKey { t with sendQueue := ([] : List PacketEntry) } entry.address)
      = Except.error PacketProcessorError.keyIsNull := by
    rw [h1, h2, hw]
  have hmain : WritePackets proc t
      = destroyPacket
          (incrCounter { t with sendQueue := ([] : List PacketEntry) }
            TransportCounter.encryptionMappingFailures) entry.packet := by
    simp only [WritePackets, hfacb, Bool.false_eq_true, if_false, hq, WritePacketsLoop]
    rw [writeAndFlushPacket_keyIsNull proc entry.address entry.packet entry.sequence _ hw1]
  refine ⟨?_, ?_, ?_, ?_⟩
  · simp [hmain, destroyPacket, incrCounter]
  · intro c hc
    simp [hmain, destroyPacket, incrCounter, hc]
  · simp [hmain, destroyPacket, incrCounter]
  · simp [hmain, destroyPacket, incrCounter]

/-- A transport holding one queued encrypted-type packet for a key-less
address. -/
def tQueuedEncrypted : Transport :=
  { baseTransport with sendQueue := [⟨5, 4, pkt1⟩] }

/-- C3 witness: concrete transport, processor failing with key-is-null. -/
theorem writePackets_keyMissing_counts_and_destroys_witness :
    (WritePackets procNeedsKey tQueuedEncrypted).counters
        TransportCounter.encryptionMappingFailures
      = tQueuedEncrypted.counters TransportCounter.encryptionMappingFailures + 1
    ∧ (∀ c, c ≠ TransportCounter.encryptionMappingFailures →
        (WritePackets procNeedsKey tQueuedEncrypted).counters c
          = tQueuedEncrypted.counters c)
    ∧ (WritePackets procNeedsKey tQueuedEncrypted).sentDatagrams
        = tQueuedEncrypted.sentDatagrams
    ∧ (WritePackets procNeedsKey tQueuedEncrypted).destroyed
        = tQueuedEncrypted.destroyed ++ [pkt1] :=
  writePackets_keyMissing_counts_and_destroys procNeedsKey tQueuedEncrypted 2
    ⟨5, 4, pkt1⟩ rfl rfl rfl (by decide) (by decide) (by rfl)

/-- One ReadPackets iteration at a full receive queue: the consumed datagram
is dropped, the overflow counter bumps once, the drain stops, and the rest
stays with the I/O layer. -/
theorem readPacketsLoop_step_full (proc : PacketProcessor) (address : Nat)
    (buffer : List Nat) (rest : List (Nat × List Nat)) (t : Transport)
    (hfull : receiveQueueIsFull t = true) :
    ReadPacketsLoop proc ((address, buffer) :: rest) t
      = { incrCounter t TransportCounter.receiveQueueOverflow with
          pendingDatagrams := rest } := by
  simp only [ReadPacketsLoop, hfull, if_true]

/-- One ReadPackets iteration at a non-full queue where the processor
fails: the error switch runs and the loop continues on the rest. -/
theorem readPacketsLoop_step_error (proc : PacketProcessor) (address : Nat)
    (buffer : List Nat) (rest : List (Nat × List Nat)) (t : Transport)
    (e : PacketProcessorError)
    (hfull : receiveQueueIsFull t = false)
    (hread : proc.readPacket buffer (GetReceiveKey t address)
        (if insecureMode t then t.allPacketTypes else t.packetTypeIsEncrypted)
        (if insecureMode t then t.allPacketTypes else t.packetTypeIsUnencrypted)
        = Except.error e) :
    ReadPacketsLoop proc ((address, buffer) :: rest) t
      = ReadPacketsLoop proc rest (readErrorStep t e) := by
  simp only [ReadPacketsLoop, hfull, Bool.false_eq_true, if_false, hread]

/-- readErrorStep never touches the classification tables. -/
theorem readErrorStep_packetTypes (t : Transport) (e : PacketProcessorError) :
    (readErrorStep t e).packetTypeIsEncrypted = t.packetTypeIsEncrypted
    ∧ (readErrorStep t e).packetTypeIsUnencrypted = t.packetTypeIsUnencrypted := by
  cases e <;> simp [readErrorStep, incrCounter]

/-- The read drain loop never touches the classification tables. -/
theorem readPacketsLoop_preserves_packetTypes (proc : PacketProcessor)
    (l : List (Nat × List Nat)) (t : Transport) :
    (ReadPacketsLoop proc l t).packetTypeIsEncrypted = t.packetTypeIsEncrypted
    ∧ (ReadPacketsLoop proc l t).packetTypeIsUnencrypted = t.packetTypeIsUnencrypted := by
  induction l generalizing t with
  | nil => simp [ReadPacketsLoop]
  | cons hd tl ih =>
    obtain ⟨address, buffer⟩ := hd
    cases hfull : receiveQueueIsFull t
    · simp only [ReadPacketsLoop, hfull, Bool.false_eq_true, if_false]
      split
      · rename_i e heq
        refine ⟨?_, ?_⟩
        · rw [(ih (readErrorStep t e)).1, (readErrorStep_packetTypes t e).1]
        · rw [(ih (readErrorStep t e)).2, (readErrorStep_packetTypes t e).2]
      · rename_i p s enc heq
        cases enc
        · refine ⟨?_, ?_⟩
          · rw [(ih _).1]; simp [incrCounter]
          · rw [(ih _).2]; simp [incrCounter]
        · refine ⟨?_, ?_⟩
          · rw [(ih _).1]; simp [incrCounter]
          · rw [(ih _).2]; simp [incrCounter]
    · simp [ReadPacketsLoop, hfull, incrCounter]

/-- C8: a buffer on which the processor fails with any of the four read
failure kinds increments exactly the counter mapped to that kind, appends
nothing to the receive queue, and the drain continues on the remaining
datagrams. -/
theorem readPackets_failure_counts_and_continues
    (proc : PacketProcessor) (address : Nat) (buffer : List Nat)
    (rest : List (Nat × List Nat)) (t : Transport) (e : PacketProcessorError)
    (c : TransportCounter)
    (hfull : receiveQueueIsFull t = false)
    (hread : proc.readPacket buffer (GetReceiveKey t address)
        (if insecureMode t then t.allPacketTypes else t.packetTypeIsEncrypted)
        (if insecureMode t then t.allPacketTypes else t.packetTypeIsUnencrypted)
        = Except.error e)
    (hc : readFailureCounter e = some c) :
    ReadPacketsLoop proc ((address, buffer) :: rest) t
      = ReadPacketsLoop proc rest (incrCounter t c) := by
  rw [readPacketsLoop_step_error proc address buffer rest t e hfull hread]
  cases e <;> simp [readFailureCounter] at hc <;> simp [readErrorStep, ← hc]

/-- C8 witness: a too-small buffer at a non-full queue bumps the
decrypt-packet-failures counter and the drain moves on. -/
theorem readPackets_failure_counts_and_continues_witness :
    receiveQueueIsFull baseTransport = false
    ∧ readFailureCounter PacketProcessorError.packetTooSmall
        = some TransportCounter.decryptPacketFailures
    ∧ ReadPacketsLoop procNeedsKey [(4, [1]), (5, [2])] baseTransport
        = ReadPacketsLoop procNeedsKey [(5, [2])]
            (incrCounter baseTransport TransportCounter.decryptPacketFailures) :=
  ⟨by decide, by decide,
    readPackets_failure_counts_and_continues procNeedsKey 4 [1] [(5, [2])]
      baseTransport PacketProcessorError.packetTooSmall
      TransportCounter.decryptPacketFailures (by decide) (by rfl) (by rfl)⟩

/-- C2 (amended): with an inbound queue of capacity 2, an empty receive
queue and exactly 3 datagrams pending at the raw I/O layer whose first two
process successfully, one read cycle queues exactly those 2 packets,
increments the overflow counter exactly once, and CONSUMES the 3rd datagram
(the source pulls a datagram from the I/O layer before checking queue
fullness, so nothing is left for redelivery). -/
theorem readPackets_capacity2_three_pending
    (proc : PacketProcessor) (t : Transport) (n : Nat)
    (a1 a2 a3 : Nat) (b1 b2 b3 : List Nat) (p1 p2 : Packet) (s1 s2 : Nat)
    (e1 e2 : Bool)
    (hfac : t.packetFactory = some n)
    (hcap : t.receiveQueueCapacity = 2)
    (hq : t.receiveQueue = [])
    (hins : t.flags &&& TRANSPORT_FLAG_INSECURE_MODE = 0)
    (hpend : t.pendingDatagrams = [(a1, b1), (a2, b2), (a3, b3)])
    (h1 : proc.readPacket b1 (t.receiveKeys a1)
        t.packetTypeIsEncrypted t.packetTypeIsUnencrypted = Except.ok (p1, s1, e1))
    (h2 : proc.readPacket b2 (t.receiveKeys a2)
        t.packetTypeIsEncrypted t.packetTypeIsUnencrypted = Except.ok (p2, s2, e2)) :
    (ReadPackets proc t).receiveQueue = [⟨s1, a1, p1⟩, ⟨s2, a2, p2⟩]
    ∧ (ReadPackets proc t).counters TransportCounter.receiveQueueOverflow
        = t.counters TransportCounter.receiveQueueOverflow + 1
    ∧ (ReadPackets proc t).pendingDatagrams = [] := by
  have hfacb : t.packetFactory.isNone = false := by simp [hfac]
  cases e1 <;> cases e2 <;>
    refine ⟨?_, ?_, ?_⟩ <;>
      simp [ReadPackets, hfacb, hpend, ReadPacketsLoop, receiveQueueIsFull,
        insecureMode, hins, hcap, hq, GetReceiveKey, incrCounter, h1, h2]

/-- The C2 scenario made concrete: capacity-2 queue, 3 pending datagrams,
always-succeeding processor. -/
def tThreePending : Transport :=
  { baseTransport with
    pendingDatagrams := [(1, [10]), (2, [20]), (3, [30])] }

/-- C2 counterexample: on the concrete run the claim's final conjunct is
false: after the cycle the raw I/O layer holds nothing (the 3rd datagram
was consumed and dropped, not left for redelivery), while the first two
conjuncts of the claim do hold. -/
theorem readPackets_third_datagram_left_counterexample :
    (ReadPackets procOk tThreePending).receiveQueue.length = 2
    ∧ (ReadPackets procOk tThreePending).counters
        TransportCounter.receiveQueueOverflow = 1
    ∧ (ReadPackets procOk tThreePending).pendingDatagrams = []
    ∧ ¬ (ReadPackets procOk tThreePending).pendingDatagrams = [(3, [30])] := by
  decide

/-- C2 witness: the amended statement at the concrete scenario. -/
theorem readPackets_capacity2_three_pending_witness :
    (ReadPackets procOk tThreePending).receiveQueue
        = [⟨5, 1, ⟨0, 10⟩⟩, ⟨5, 2, ⟨0, 20⟩⟩]
    ∧ (ReadPackets procOk tThreePending).counters
        TransportCounter.receiveQueueOverflow
        = tThreePending.counters TransportCounter.receiveQueueOverflow + 1
    ∧ (ReadPackets procOk tThreePending).pendingDatagrams = [] :=
  readPackets_capacity2_three_pending procOk tThreePending 2 1 2 3 [10] [20] [30]
    ⟨0, 10⟩ ⟨0, 20⟩ 5 5 false false rfl rfl rfl (by decide) rfl (by rfl) (by rfl)

/-- getD after set at the written index, inside the range. -/
theorem list_getD_set_self (l : List Bool) (i : Nat) (b d : Bool)
    (h : i < l.length) :
    (l.set i b).getD i d = b := by
  induction l generalizing i with
  | nil => simp at h
  | cons x xs ih =>
    cases i with
    | zero => simp
    | succ j =>
      simp only [List.set_cons_succ, List.getD_cons_succ]
      exact ih j (by simpa using h)

/-- getD after set at a different index. -/
theorem list_getD_set_ne (l : List Bool) (i j : Nat) (b d : Bool) (h : i ≠ j) :
    (l.set i b).getD j d = l.getD j d := by
  induction l generalizing i j with
  | nil => simp
  | cons x xs ih =>
    cases i with
    | zero =>
      cases j with
      | zero => exact absurd rfl h
      | succ k => simp
    | succ i2 =>
      cases j with
      | zero => simp
      | succ k =>
        simp only [List.set_cons_succ, List.getD_cons_succ]
        exact ih i2 k (fun hh => h (by rw [hh]))

/-- C7: SetPacketFactory establishes the classification complementarity
invariant; EnablePacketEncryption and DisableEncryptionForPacketType
preserve it; and the read path, the only consumer of the separate all-types
acceptance set, never alters the two classification arrays. -/
theorem classification_invariant (t : Transport) (numPacketTypes ptype : Nat)
    (proc : PacketProcessor) :
    classificationComplementary (SetPacketFactory numPacketTypes t) = true
    ∧ (classificationComplementary t = true →
        classificationComplementary (EnablePacketEncryption t) = true)
    ∧ (classificationComplementary t = true →
        classificationComplementary (DisableEncryptionForPacketType ptype t) = true)
    ∧ (ReadPackets proc t).packetTypeIsEncrypted = t.packetTypeIsEncrypted
    ∧ (ReadPackets proc t).packetTypeIsUnencrypted = t.packetTypeIsUnencrypted := by
  refine ⟨?_, ?_, ?_, ?_, ?_⟩
  · simp only [classificationComplementary, SetPacketFactory, List.length_replicate,
      Bool.and_eq_true, beq_iff_eq, List.all_eq_true, List.mem_range]
    refine ⟨trivial, ?_⟩
    intro i hi
    rw [list_getD_replicate true false numPacketTypes i hi,
      list_getD_replicate false false numPacketTypes i hi]
    rfl
  · intro hcc
    simp only [classificationComplementary, Bool.and_eq_true, beq_iff_eq,
      List.all_eq_true, List.mem_range] at hcc
    obtain ⟨hlen, hpt⟩ := hcc
    simp only [classificationComplementary, EnablePacketEncryption,
      List.length_replicate, Bool.and_eq_true, beq_iff_eq, List.all_eq_true,
      List.mem_range]
    refine ⟨hlen.symm ▸ rfl, ?_⟩
    intro i hi
    rw [list_getD_replicate false false t.packetTypeIsUnencrypted.length i
        (hlen ▸ hi),
      list_getD_replicate true false t.packetTypeIsEncrypted.length i hi]
    rfl
  · intro hcc
    simp only [classificationComplementary, Bool.and_eq_true, beq_iff_eq,
      List.all_eq_true, List.mem_range] at hcc
    obtain ⟨hlen, hpt⟩ := hcc
    simp only [classificationComplementary, DisableEncryptionForPacketType,
      List.length_set, Bool.and_eq_true, beq_iff_eq, List.all_eq_true,
      List.mem_range]
    refine ⟨hlen, ?_⟩
    intro i hi
    by_cases hij : ptype = i
    · subst hij
      rw [list_getD_set_self t.packetTypeIsEncrypted ptype false false hi,
        list_getD_set_self t.packetTypeIsUnencrypted ptype true false (hlen ▸ hi)]
      rfl
    · rw [list_getD_set_ne t.packetTypeIsEncrypted ptype i false false hij,
        list_getD_set_ne t.packetTypeIsUnencrypted ptype i true false hij]
      exact hpt i hi
  · by_cases hfac : t.packetFactory.isNone = true
    · simp [ReadPackets, hfac]
    · simp only [ReadPackets, Bool.not_eq_true] at hfac ⊢
      simp only [hfac, Bool.false_eq_true, if_false]
      rw [(readPacketsLoop_preserves_packetTypes proc t.pendingDatagrams _).1]
  · by_cases hfac : t.packetFactory.isNone = true
    · simp [ReadPackets, hfac]
    · simp only [ReadPackets, Bool.not_eq_true] at hfac ⊢
      simp only [hfac, Bool.false_eq_true, if_false]
      rw [(readPacketsLoop_preserves_packetTypes proc t.pendingDatagrams _).2]

/-- C7 witness at a concrete transport. -/
theorem classification_invariant_witness :
    classificationComplementary (SetPacketFactory 3 baseTransport) = true
    ∧ (classificationComplementary baseTransport = true →
        classificationComplementary (EnablePacketEncryption baseTransport) = true)
    ∧ (classificationComplementary baseTransport = true →
        classificationComplementary
          (DisableEncryptionForPacketType 1 baseTransport) = true)
    ∧ (ReadPackets procOk baseTransport).packetTypeIsEncrypted
        = baseTransport.packetTypeIsEncrypted
    ∧ (ReadPackets procOk baseTransport).packetTypeIsUnencrypted
        = baseTransport.packetTypeIsUnencrypted :=
  classification_invariant baseTransport 3 1 procOk

end Yojimbo
